import Mathlib

/-!
Shallow embedding of `src/data_visualization.py` ("Ubuntu Data Explorer").

The script loads a tabular dataset (a user-supplied CSV or the bundled Iris
dataset), prints descriptive statistics, and renders a fixed set of charts.
We model a pandas dataframe as a list of typed columns together with a list
of rows (each row a list of cells), and every observable action of the
script (console prints, the single `input()` prompt, filesystem reads,
chart windows) as an explicit effect trace.  The environment `RunEnv`
supplies the outcomes of the three external interactions of `load_dataset`:
the text the user typed, whether `os.path.exists` succeeds, and the result
of `pd.read_csv` (a dataframe or a raised exception).
-/

/-- Pandas dtypes, at the granularity the script distinguishes:
`select_dtypes(include=["number"])` picks `numeric`, and
`select_dtypes(include=["object", "category"])` picks `object` and
`categorical`. -/
inductive Dtype
  | numeric
  | object
  | categorical
  | other
deriving DecidableEq, Repr

/-- A dataframe cell: a missing value (NaN/None), a number, or a string. -/
inductive Cell
  | null
  | num (x : ℚ)
  | str (s : String)
deriving DecidableEq, Repr

/-- A dataframe column header: its label and dtype. -/
structure Col where
  name : String
  dtype : Dtype
deriving DecidableEq, Repr

/-- A pandas dataframe: column headers plus rows of cells, row `r` aligned
positionally with `cols`. -/
structure DataFrame where
  cols : List Col
  rows : List (List Cell)
deriving DecidableEq, Repr

/-- `df.empty` in pandas: true when either axis has length zero. -/
def DataFrame.emptyDF (df : DataFrame) : Bool :=
  df.rows.isEmpty || df.cols.isEmpty

/-- Label-based lookup of a cell in one row, walking the row and the column
headers together (pandas column indexing by label). -/
def rowLookup : List Cell → List Col → String → Option Cell
  | _, [], _ => none
  | [], _ :: _, _ => none
  | v :: vs, c :: cs, nm => if c.name = nm then some v else rowLookup vs cs nm

/-- The cell of column `nm` in row `r` of `df` (missing treated as null). -/
def cellOf (df : DataFrame) (r : List Cell) (nm : String) : Cell :=
  (rowLookup r df.cols nm).getD Cell.null

/-- Whether `df` has a column labelled `nm`. -/
def hasCol (df : DataFrame) (nm : String) : Bool :=
  df.cols.any (fun c => c.name = nm)

/-- The full value list of column `nm`, when the column exists. -/
def colValues (df : DataFrame) (nm : String) : Option (List Cell) :=
  if hasCol df nm then some (df.rows.map (fun r => cellOf df r nm)) else none

/-- `select_dtypes(include=["number"]).columns` (line 70/85). -/
def numericColNames (df : DataFrame) : List String :=
  (df.cols.filter (fun c => c.dtype = Dtype.numeric)).map (fun c => c.name)

/-- `select_dtypes(include=["object", "category"]).columns` (line 69/102). -/
def catColNames (df : DataFrame) : List String :=
  (df.cols.filter (fun c => c.dtype = Dtype.object ∨ c.dtype = Dtype.categorical)).map
    (fun c => c.name)

/-- `df.dropna()` (line 60): keep exactly the rows without a missing value,
in their original order. -/
def dropna (df : DataFrame) : DataFrame :=
  { df with rows := df.rows.filter (fun r => decide (Cell.null ∉ r)) }

/-- `df.head()` (line 51): the first five rows. -/
def headDF (df : DataFrame) : DataFrame :=
  { df with rows := df.rows.take 5 }

/-- `df.isnull().sum()` (line 57): per column, the number of rows whose cell
in that column is missing. -/
def isnullSum (df : DataFrame) : List (String × Nat) :=
  (List.range df.cols.length).map (fun i =>
    ((df.cols.getD i ⟨"", Dtype.other⟩).name,
     (df.rows.filter (fun r => decide (r.getD i Cell.null = Cell.null))).length))

/-- The four chart kinds rendered by `visualize_data` (lines 91-129), with
the column labels each one is drawn from. -/
inductive Plot
  | line (col : String)
  | bar (catCol numCol : String)
  | hist (col : String)
  | scatter (x y : String) (hue : Option String)
deriving DecidableEq, Repr

/-- Mean of the numeric values of a list of cells, skipping missing values,
as pandas `mean` does; `none` is pandas NaN (no numeric value present). -/
def meanQ (cs : List Cell) : Option ℚ :=
  let nums := cs.filterMap (fun c => match c with | Cell.num x => some x | _ => none)
  if nums.length = 0 then none else some (nums.sum / (nums.length : ℚ))

/-- The distinct non-missing keys of the grouping column (pandas `groupby`
drops missing keys; pandas additionally sorts the keys, an ordering no part
of the script observes, so keys are listed here in order of occurrence). -/
def groupKeys (df : DataFrame) (g : String) : List Cell :=
  ((df.rows.map (fun r => cellOf df r g)).filter (fun c => decide (¬ c = Cell.null))).dedup

/-- `df.groupby(group_col).mean(numeric_only=True)` (line 75): for each key
of the grouping column, the mean of every numeric column over the rows
carrying that key. -/
def groupbyMean (df : DataFrame) (g : String) : List (Cell × List (String × Option ℚ)) :=
  (groupKeys df g).map (fun k =>
    (k, (numericColNames df).map (fun nc =>
      (nc, meanQ ((df.rows.filter (fun r => decide (cellOf df r g = k))).map
        (fun r => cellOf df r nc))))))

/-- One observable action of the script.  `writeFile` is the effect the
script never performs; it is in the type so that the absence of writes is a
statement about the trace rather than about the type. -/
inductive Effect
  | print (s : String)
  | prompt
  | checkExists (path : String)
  | readFile (path : String)
  | showFrame (df : DataFrame)
  | showDtypes (cols : List Col)
  | showNullCounts (t : List (String × Nat))
  | describeOut (df : DataFrame)
  | showGrouped (t : List (Cell × List (String × Option ℚ)))
  | showChart (p : Plot)
  | writeFile (path : String)
deriving DecidableEq, Repr

/-- The integer value of a numeric cell (the Iris `target` codes 0, 1, 2). -/
def cellToNat : Cell → Nat
  | Cell.num x => x.num.toNat
  | _ => 0

/-- `df[nm] = ...` with a per-row value (line 43): overwrite the column when
the label exists, otherwise append a new column of the given dtype. -/
def setColumn (df : DataFrame) (nm : String) (dt : Dtype) (val : List Cell → Cell) :
    DataFrame :=
  if hasCol df nm then
    { cols := df.cols, rows := df.rows.map (fun r => setCell df.cols r nm (val r)) }
  else
    { cols := df.cols ++ [⟨nm, dt⟩], rows := df.rows.map (fun r => r ++ [val r]) }
where
  setCell : List Col → List Cell → String → Cell → List Cell
    | _, [], _, _ => []
    | [], r, _, _ => r
    | c :: cs, v :: vs, nm, x => if c.name = nm then x :: vs else v :: setCell cs vs nm x

/-- `df.drop(columns=nm)` (line 44): drop every column labelled `nm`;
`none` models the `KeyError` pandas raises when no column has that label. -/
def dropColumn (df : DataFrame) (nm : String) : Option DataFrame :=
  if hasCol df nm then
    some { cols := df.cols.filter (fun c => decide (¬ c.name = nm)),
           rows := df.rows.map (fun r => dropRow df.cols r nm) }
  else none
where
  dropRow : List Col → List Cell → String → List Cell
    | [], r, _ => r
    | _ :: _, [], _ => []
    | c :: cs, v :: vs, nm => if c.name = nm then dropRow cs vs nm else v :: dropRow cs vs nm

/-- `iris.target_names[row's target]` as a cell (line 43). -/
def speciesCell (tn : List String) (cols : List Col) (r : List Cell) : Cell :=
  Cell.str (tn.getD (cellToNat ((rowLookup r cols "target").getD Cell.null)) "")

/-- The body of `load_iris_dataset` after `iris.frame` is obtained
(lines 43-44): add the `species` column from the `target` codes, then drop
the `target` column. -/
def loadIrisTransform (frame : DataFrame) (tn : List String) : Option DataFrame :=
  dropColumn (setColumn frame "species" Dtype.object (speciesCell tn frame.cols)) "target"

/-- Modelled from the spec: the sklearn `load_iris(as_frame=True).frame`
dataframe is library data, not code of this repository.  The spec calls it
"a bundled reference dataset": four numeric measurement columns plus a
numeric `target` code column (0, 1 or 2).  A representative sample of rows
stands in for the 150-row original; every claim about it concerns its
column structure, not its row count. -/
def irisFrame : DataFrame :=
  { cols := [⟨"sepal length (cm)", Dtype.numeric⟩, ⟨"sepal width (cm)", Dtype.numeric⟩,
             ⟨"petal length (cm)", Dtype.numeric⟩, ⟨"petal width (cm)", Dtype.numeric⟩,
             ⟨"target", Dtype.numeric⟩],
    rows := [[Cell.num (51/10), Cell.num (35/10), Cell.num (14/10), Cell.num (2/10), Cell.num 0],
             [Cell.num (49/10), Cell.num 3, Cell.num (14/10), Cell.num (2/10), Cell.num 0],
             [Cell.num 7, Cell.num (32/10), Cell.num (47/10), Cell.num (14/10), Cell.num 1],
             [Cell.num (64/10), Cell.num (32/10), Cell.num (45/10), Cell.num (15/10), Cell.num 1],
             [Cell.num (63/10), Cell.num (33/10), Cell.num 6, Cell.num (25/10), Cell.num 2],
             [Cell.num (58/10), Cell.num (27/10), Cell.num (51/10), Cell.num (19/10), Cell.num 2]] }

/-- Modelled from the spec: `iris.target_names` from sklearn. -/
def irisTargetNames : List String := ["setosa", "versicolor", "virginica"]

/-- The dataframe `load_iris_dataset` returns. -/
def irisDF : DataFrame :=
  (loadIrisTransform irisFrame irisTargetNames).getD ⟨[], []⟩

/-- `load_iris_dataset` (lines 39-46): its effect trace and its result. -/
def loadIrisDataset : List Effect × DataFrame :=
  ([Effect.print "✓ Iris dataset successfully loaded."], irisDF)

/-- Python `str.strip()` (line 22): remove whitespace from both ends. -/
def stripStr (s : String) : String :=
  ⟨((s.data.dropWhile Char.isWhitespace).reverse.dropWhile Char.isWhitespace).reverse⟩

/-- The outcomes of the external interactions of one run: what the user
typed at the prompt, whether `os.path.exists` finds the path, and what
`pd.read_csv` does (returns a dataframe, or raises with a message). -/
structure RunEnv where
  userInput : String
  fileExists : Bool
  readCsvResult : Except String DataFrame
deriving Repr

/-- `load_dataset` (lines 19-37).  `choice` is the stripped input; the
Python `if choice:` test is its non-emptiness.  A Python function returns
`None` only by falling off the end, hence the `Option` result: every
`return` statement of the source wraps `some`. -/
def loadDataset (env : RunEnv) : List Effect × Option DataFrame :=
  let intro := [Effect.print "Would you like to load your own CSV dataset?", Effect.prompt]
  let choice := stripStr env.userInput
  if choice = "" then
    (intro ++ loadIrisDataset.1, some loadIrisDataset.2)
  else
    if env.fileExists = false then
      (intro ++ [Effect.checkExists choice,
                 Effect.print ("✗ File not found: " ++ choice ++ ". Falling back to Iris dataset.")]
             ++ loadIrisDataset.1,
       some loadIrisDataset.2)
    else
      match env.readCsvResult with
      | Except.ok df =>
          (intro ++ [Effect.checkExists choice, Effect.readFile choice,
                     Effect.print ("✓ Dataset successfully loaded from " ++ choice)],
           some df)
      | Except.error e =>
          (intro ++ [Effect.checkExists choice, Effect.readFile choice,
                     Effect.print ("✗ Error loading CSV: " ++ e ++ ". Falling back to Iris dataset.")]
                 ++ loadIrisDataset.1,
           some loadIrisDataset.2)

/-- `explore_data` (lines 48-61): print overview, dtypes and missing-value
counts, then return the dataframe with missing rows dropped. -/
def exploreData (df : DataFrame) : List Effect × DataFrame :=
  ([Effect.print "--- Data Overview ---", Effect.showFrame (headDF df),
    Effect.print "--- Data Types ---", Effect.showDtypes df.cols,
    Effect.print "--- Missing Values ---", Effect.showNullCounts (isnullSum df)],
   dropna df)

/-- `basic_analysis` (lines 63-81): always print `describe`; run the
group-by-mean block exactly when a categorical and a numeric column exist,
grouping by the first categorical column. -/
def basicAnalysis (df : DataFrame) : List Effect :=
  let eff0 := [Effect.print "--- Summary Statistics ---", Effect.describeOut df]
  let cat := catColNames df
  let num := numericColNames df
  if 0 < cat.length ∧ 0 < num.length then
    let g := cat.getD 0 ""
    eff0 ++ [Effect.print ("--- Mean of numerical features grouped by " ++ g ++ " ---"),
             Effect.showGrouped (groupbyMean df g),
             Effect.print "Observation:",
             Effect.print ("→ Grouping by " ++ g ++ " shows distinct differences in numerical features.")]
  else
    eff0 ++ [Effect.print "(No categorical column found for grouping analysis.)"]

/-- `visualize_data` (lines 83-129): bail out with a message when fewer
than two numeric columns exist; otherwise render the line chart, the bar
chart (only when a categorical column exists, line 103), the histogram and
the scatter plot. -/
def visualizeData (df : DataFrame) : List Effect :=
  let num := numericColNames df
  if num.length < 2 then
    [Effect.print "✗ Not enough numerical columns to generate all plots."]
  else
    let n0 := num.getD 0 ""
    let n1 := num.getD 1 ""
    let cat := catColNames df
    [Effect.showChart (Plot.line n0)]
      ++ (if 0 < cat.length then [Effect.showChart (Plot.bar (cat.getD 0 "") n0)] else [])
      ++ [Effect.showChart (Plot.hist n1),
          Effect.showChart (Plot.scatter n0 n1 cat.head?)]

/-- The pipeline stages of `main`, for stating order and multiplicity. -/
inductive Step
  | load
  | explore
  | analyze
  | visualize
deriving DecidableEq, Repr

/-- The trace of one run of `main`: its effects, the stages it executed in
order, and whether it reached the final completion message. -/
structure RunResult where
  effects : List Effect
  steps : List Step
  completed : Bool
deriving Repr

/-- `main` (lines 131-143): load, guard on `df is None or df.empty`, then
explore (whose result replaces `df`), analyse, visualize, and print the
completion line. -/
def mainRun (env : RunEnv) : RunResult :=
  let intro := Effect.print "Welcome to Ubuntu Data Explorer"
  let l := loadDataset env
  match l.2 with
  | none =>
      { effects := intro :: l.1 ++ [Effect.print "✗ No dataset available. Exiting."],
        steps := [Step.load], completed := false }
  | some df =>
      if df.emptyDF then
        { effects := intro :: l.1 ++ [Effect.print "✗ No dataset available. Exiting."],
          steps := [Step.load], completed := false }
      else
        let e := exploreData df
        { effects := intro :: l.1 ++ e.1 ++ basicAnalysis e.2 ++ visualizeData e.2
                       ++ [Effect.print "Analysis complete. Community enriched."],
          steps := [Step.load, Step.explore, Step.analyze, Step.visualize],
          completed := true }

/-- Does an effect write to the filesystem (or otherwise mutate state
outside the process)?  True only of `writeFile`. -/
def effectWrites : Effect → Bool
  | Effect.writeFile _ => true
  | _ => false

/-- Console or chart output: the effects that display something. -/
def effectConsoleOrChart : Effect → Bool
  | Effect.print _ => true
  | Effect.showFrame _ => true
  | Effect.showDtypes _ => true
  | Effect.showNullCounts _ => true
  | Effect.describeOut _ => true
  | Effect.showGrouped _ => true
  | Effect.showChart _ => true
  | _ => false

/-- The `input()` prompt effect. -/
def isPrompt : Effect → Bool
  | Effect.prompt => true
  | _ => false

/-- The `os.path.exists` effect. -/
def isCheckExists : Effect → Bool
  | Effect.checkExists _ => true
  | _ => false

/-- The `pd.read_csv` effect. -/
def isReadFile : Effect → Bool
  | Effect.readFile _ => true
  | _ => false

/-- A rendered bar chart. -/
def isBarChart : Effect → Bool
  | Effect.showChart (Plot.bar _ _) => true
  | _ => false

/-- Two numeric columns and no categorical column. -/
def dfTwoNum : DataFrame :=
  ⟨[⟨"a", Dtype.numeric⟩, ⟨"b", Dtype.numeric⟩], [[Cell.num 1, Cell.num 2]]⟩

/-- A single numeric column. -/
def dfOneNum : DataFrame :=
  ⟨[⟨"a", Dtype.numeric⟩], [[Cell.num 1]]⟩

/-- One categorical and one numeric column. -/
def dfCatNum : DataFrame :=
  ⟨[⟨"c", Dtype.object⟩, ⟨"n", Dtype.numeric⟩],
   [[Cell.str "u", Cell.num 1], [Cell.str "v", Cell.num 3]]⟩

/-- One numeric column with one missing value. -/
def dfWithNull : DataFrame :=
  ⟨[⟨"a", Dtype.numeric⟩], [[Cell.num 1], [Cell.null]]⟩

/-! ## Helper lemmas -/

/-- Exhaustive description of the dataframe `load_dataset` returns: either
the Iris fallback, or the dataframe `pd.read_csv` produced. -/
theorem loadDataset_result (env : RunEnv) :
    (loadDataset env).2 = some irisDF ∨
      ∃ d, env.readCsvResult = Except.ok d ∧ (loadDataset env).2 = some d := by
  unfold loadDataset
  by_cases h : stripStr env.userInput = ""
  · left; simp [h, loadIrisDataset]
  · by_cases hf : env.fileExists = false
    · left; simp [h, hf, loadIrisDataset]
    · cases hr : env.readCsvResult with
      | ok d => right; exact ⟨d, rfl, by simp [h, hf, hr]⟩
      | error e => left; simp [h, hf, hr, loadIrisDataset]

/-- `load_dataset` always returns a dataframe. -/
theorem loadDataset_isSome (env : RunEnv) : ∃ df, (loadDataset env).2 = some df := by
  rcases loadDataset_result env with h | ⟨d, _, h⟩
  · exact ⟨irisDF, h⟩
  · exact ⟨d, h⟩

/-! ## Claims -/

/-- C1: dataset acquisition never propagates an error.  If the user enters
nothing, `load_dataset` returns the Iris dataset; if the entered path does
not exist, or reading the CSV raises, it falls back to the Iris dataset;
otherwise it returns the dataframe read from the CSV. -/
theorem load_dataset_total_fallback (env : RunEnv) :
    (∃ df, (loadDataset env).2 = some df) ∧
    (stripStr env.userInput = "" → (loadDataset env).2 = some irisDF) ∧
    (¬ stripStr env.userInput = "" → env.fileExists = false →
      (loadDataset env).2 = some irisDF) ∧
    (¬ stripStr env.userInput = "" → env.fileExists = true →
      (∀ e, env.readCsvResult = Except.error e → (loadDataset env).2 = some irisDF) ∧
      (∀ d, env.readCsvResult = Except.ok d → (loadDataset env).2 = some d)) := by
  refine ⟨loadDataset_isSome env, ?_, ?_, ?_⟩
  · intro h; unfold loadDataset; simp [h, loadIrisDataset]
  · intro h hf; unfold loadDataset; simp [h, hf, loadIrisDataset]
  · intro h hf
    constructor
    · intro e he; unfold loadDataset; simp [h, hf, he, loadIrisDataset]
    · intro d hd; unfold loadDataset; simp [h, hf, hd, loadIrisDataset]

/-- Witness for C1 at concrete environments: empty input, missing file,
read error, and a successful read. -/
theorem load_dataset_total_fallback_witness :
    (loadDataset ⟨"", true, Except.ok ⟨[], []⟩⟩).2 = some irisDF ∧
    (loadDataset ⟨"data.csv", false, Except.ok ⟨[], []⟩⟩).2 = some irisDF ∧
    (loadDataset ⟨"data.csv", true, Except.error "parse error"⟩).2 = some irisDF ∧
    (loadDataset ⟨"data.csv", true, Except.ok ⟨[], []⟩⟩).2 = some ⟨[], []⟩ :=
  ⟨(load_dataset_total_fallback ⟨"", true, Except.ok ⟨[], []⟩⟩).2.1 (by decide),
   (load_dataset_total_fallback ⟨"data.csv", false, Except.ok ⟨[], []⟩⟩).2.2.1
     (by decide) rfl,
   ((load_dataset_total_fallback ⟨"data.csv", true, Except.error "parse error"⟩).2.2.2
     (by decide) rfl).1 "parse error" rfl,
   ((load_dataset_total_fallback ⟨"data.csv", true, Except.ok ⟨[], []⟩⟩).2.2.2
     (by decide) rfl).2 ⟨[], []⟩ rfl⟩

/-- C2: every error condition during dataset acquisition — the path not
existing, or any exception while reading the CSV — receives one and the
same handling, the fallback to the Iris dataset; no error condition is
handled differently. -/
theorem load_dataset_error_taxonomy (env : RunEnv)
    (hc : ¬ stripStr env.userInput = "")
    (herr : env.fileExists = false ∨ ∃ e, env.readCsvResult = Except.error e) :
    (loadDataset env).2 = some irisDF := by
  unfold loadDataset
  rcases herr with hf | ⟨e, he⟩
  · simp [hc, hf, loadIrisDataset]
  · by_cases hf : env.fileExists = false
    · simp [hc, hf, loadIrisDataset]
    · simp [hc, hf, he, loadIrisDataset]

/-- Witness for C2: both error conditions at concrete environments. -/
theorem load_dataset_error_taxonomy_witness :
    (loadDataset ⟨"missing.csv", false, Except.ok ⟨[], []⟩⟩).2 = some irisDF ∧
    (loadDataset ⟨"bad.csv", true, Except.error "boom"⟩).2 = some irisDF :=
  ⟨load_dataset_error_taxonomy ⟨"missing.csv", false, Except.ok ⟨[], []⟩⟩
     (by decide) (Or.inl rfl),
   load_dataset_error_taxonomy ⟨"bad.csv", true, Except.error "boom"⟩
     (by decide) (Or.inr ⟨"boom", rfl⟩)⟩

/-- C10: `load_dataset` never returns `None`, so the `None` half of the
guard in `main` is unreachable; `main` exits early (with the "No dataset
available" message) exactly when the loaded dataframe is empty, and
otherwise runs to completion and prints the completion message. -/
theorem main_guard (env : RunEnv) :
    ¬ (loadDataset env).2 = none ∧
    ∀ df, (loadDataset env).2 = some df →
      (((mainRun env).completed = false) ↔ df.emptyDF = true) ∧
      (df.emptyDF = true →
        Effect.print "✗ No dataset available. Exiting." ∈ (mainRun env).effects) ∧
      (df.emptyDF = false →
        Effect.print "Analysis complete. Community enriched." ∈ (mainRun env).effects) := by
  obtain ⟨d, hd⟩ := loadDataset_isSome env
  refine ⟨by simp [hd], ?_⟩
  intro df hdf
  rw [hd] at hdf
  injection hdf with hdf
  subst hdf
  unfold mainRun
  by_cases he : d.emptyDF
  · simp [hd, he]
  · simp [hd, he]

/-- Every effect of `explore_data` is console or chart output. -/
theorem exploreData_all_console (df : DataFrame) :
    (exploreData df).1.all effectConsoleOrChart = true := rfl

/-- Every effect of `load_iris_dataset` is console or chart output. -/
theorem loadIris_all_console : loadIrisDataset.1.all effectConsoleOrChart = true := rfl

/-- Every effect of `basic_analysis` is console or chart output. -/
theorem basicAnalysis_all_console (df : DataFrame) :
    (basicAnalysis df).all effectConsoleOrChart = true := by
  by_cases h : 0 < (catColNames df).length ∧ 0 < (numericColNames df).length <;>
    simp only [basicAnalysis, h, if_true, if_false, ite_true, ite_false] <;> rfl

/-- Every effect of `visualize_data` is console or chart output. -/
theorem visualizeData_all_console (df : DataFrame) :
    (visualizeData df).all effectConsoleOrChart = true := by
  by_cases h : (numericColNames df).length < 2 <;>
    by_cases hc : 0 < (catColNames df).length <;>
      simp only [visualizeData, h, hc, if_true, if_false, ite_true, ite_false] <;> rfl

/-- Output-only effect lists contribute nothing to a count of effects that
output-only effects never satisfy. -/
theorem countP_eq_zero_of_console (l : List Effect) (q : Effect → Bool)
    (hq : ∀ e, effectConsoleOrChart e = true → q e = false)
    (hl : l.all effectConsoleOrChart = true) : l.countP q = 0 := by
  rw [List.countP_eq_zero]
  intro e he
  simp [hq e (List.all_eq_true.mp hl e he)]

/-- Console and chart output never writes. -/
theorem console_not_writes : ∀ e, effectConsoleOrChart e = true → effectWrites e = false := by
  intro e h
  cases e <;> first | rfl | exact Bool.noConfusion h

/-- Console and chart output is not the prompt. -/
theorem console_not_prompt : ∀ e, effectConsoleOrChart e = true → isPrompt e = false := by
  intro e h
  cases e <;> first | rfl | exact Bool.noConfusion h

/-- Console and chart output is not the existence check. -/
theorem console_not_check : ∀ e, effectConsoleOrChart e = true → isCheckExists e = false := by
  intro e h
  cases e <;> first | rfl | exact Bool.noConfusion h

/-- Console and chart output is not the CSV read. -/
theorem console_not_read : ∀ e, effectConsoleOrChart e = true → isReadFile e = false := by
  intro e h
  cases e <;> first | rfl | exact Bool.noConfusion h

/-- Effect counts of `load_dataset`: exactly one prompt, at most one
existence check, at most one CSV read, no write. -/
theorem loadDataset_effect_counts (env : RunEnv) :
    (loadDataset env).1.countP isPrompt = 1 ∧
    (loadDataset env).1.countP isCheckExists ≤ 1 ∧
    (loadDataset env).1.countP isReadFile ≤ 1 ∧
    (loadDataset env).1.countP effectWrites = 0 := by
  unfold loadDataset
  by_cases h : stripStr env.userInput = ""
  · simp only [h, if_true, ite_true]
    exact ⟨rfl, Nat.zero_le 1, Nat.zero_le 1, rfl⟩
  · simp only [h, if_false, ite_false]
    by_cases hf : env.fileExists = false
    · simp only [hf, if_true, ite_true]
      exact ⟨rfl, Nat.le.refl, Nat.zero_le 1, rfl⟩
    · simp only [hf, if_false, ite_false]
      cases hr : env.readCsvResult with
      | ok d => exact ⟨rfl, Nat.le.refl, Nat.le.refl, rfl⟩
      | error e => exact ⟨rfl, Nat.le.refl, Nat.le.refl, rfl⟩

/-- C5: `main` runs the fixed pipeline load, explore (which drops missing
values), analyse, visualize, in that order, each stage at most once, the
dataframe produced by each stage feeding the next; on an empty dataframe
only the load stage runs. -/
theorem main_pipeline_order (env : RunEnv) (df : DataFrame)
    (hdf : (loadDataset env).2 = some df) :
    (∀ s, (mainRun env).steps.count s ≤ 1) ∧
    (df.emptyDF = true →
      (mainRun env).steps = [Step.load] ∧
      (mainRun env).effects =
        Effect.print "Welcome to Ubuntu Data Explorer" :: (loadDataset env).1
          ++ [Effect.print "✗ No dataset available. Exiting."]) ∧
    (df.emptyDF = false →
      (mainRun env).steps = [Step.load, Step.explore, Step.analyze, Step.visualize] ∧
      (mainRun env).effects =
        Effect.print "Welcome to Ubuntu Data Explorer" :: (loadDataset env).1
          ++ (exploreData df).1 ++ basicAnalysis (dropna df) ++ visualizeData (dropna df)
          ++ [Effect.print "Analysis complete. Community enriched."]) := by
  unfold mainRun
  by_cases he : df.emptyDF = true
  · refine ⟨?_, fun _ => ?_, fun hne => absurd he (by simp [hne])⟩
    · intro s; simp [hdf, he]; cases s <;> decide
    · simp [hdf, he]
  · refine ⟨?_, fun hemp => absurd hemp he, fun _ => ?_⟩
    · intro s; simp [hdf, he]; cases s <;> decide
    · simp [hdf, he, exploreData, dropna]

/-- Witness for C5: a successful CSV load of a small nonempty dataframe
runs all four stages in order. -/
theorem main_pipeline_order_witness :
    (mainRun ⟨"t.csv", true, Except.ok dfCatNum⟩).steps =
      [Step.load, Step.explore, Step.analyze, Step.visualize] :=
  ((main_pipeline_order ⟨"t.csv", true, Except.ok dfCatNum⟩ dfCatNum (by decide)).2.2
    (by decide)).1

/-- C6: a run writes no files and mutates no state outside the process:
no effect of any run is a write. -/
theorem main_no_external_writes (env : RunEnv) :
    (mainRun env).effects.countP effectWrites = 0 := by
  obtain ⟨df, hdf⟩ := loadDataset_isSome env
  have hload := (loadDataset_effect_counts env).2.2.2
  have hexp := countP_eq_zero_of_console _ _ console_not_writes (exploreData_all_console df)
  have hban := countP_eq_zero_of_console _ _ console_not_writes
    (basicAnalysis_all_console (exploreData df).2)
  have hvis := countP_eq_zero_of_console _ _ console_not_writes
    (visualizeData_all_console (exploreData df).2)
  unfold mainRun
  by_cases he : df.emptyDF = true <;>
    simp [hdf, he, List.countP_cons, List.countP_append, hload, hexp, hban, hvis,
          effectWrites]

/-- C7: every run prompts the user exactly once, checks the path at most
once and reads the CSV at most once: nothing is re-prompted or retried. -/
theorem main_prompts_once (env : RunEnv) :
    (mainRun env).effects.countP isPrompt = 1 ∧
    (mainRun env).effects.countP isCheckExists ≤ 1 ∧
    (mainRun env).effects.countP isReadFile ≤ 1 := by
  obtain ⟨df, hdf⟩ := loadDataset_isSome env
  have h1 := (loadDataset_effect_counts env).1
  have h2 := (loadDataset_effect_counts env).2.1
  have h3 := (loadDataset_effect_counts env).2.2.1
  have ep := countP_eq_zero_of_console _ _ console_not_prompt (exploreData_all_console df)
  have bp := countP_eq_zero_of_console _ _ console_not_prompt
    (basicAnalysis_all_console (exploreData df).2)
  have vp := countP_eq_zero_of_console _ _ console_not_prompt
    (visualizeData_all_console (exploreData df).2)
  have ec := countP_eq_zero_of_console _ _ console_not_check (exploreData_all_console df)
  have bc := countP_eq_zero_of_console _ _ console_not_check
    (basicAnalysis_all_console (exploreData df).2)
  have vc := countP_eq_zero_of_console _ _ console_not_check
    (visualizeData_all_console (exploreData df).2)
  have er := countP_eq_zero_of_console _ _ console_not_read (exploreData_all_console df)
  have br := countP_eq_zero_of_console _ _ console_not_read
    (basicAnalysis_all_console (exploreData df).2)
  have vr := countP_eq_zero_of_console _ _ console_not_read
    (visualizeData_all_console (exploreData df).2)
  unfold mainRun
  by_cases he : df.emptyDF = true <;>
    simp [hdf, he, List.countP_cons, List.countP_append, h1, ep, bp, vp, ec, bc, vc,
          er, br, vr, isPrompt, isCheckExists, isReadFile] <;>
    omega

/-- C8: the dataframe `explore_data` returns contains no missing values:
its rows are exactly the input rows without a null, in their original
order. -/
theorem explore_data_dropna (df : DataFrame) :
    (∀ r ∈ (exploreData df).2.rows, Cell.null ∉ r) ∧
    (exploreData df).2.rows = df.rows.filter (fun r => decide (Cell.null ∉ r)) ∧
    (exploreData df).2.rows.Sublist df.rows := by
  refine ⟨?_, rfl, List.filter_sublist _⟩
  intro r hr
  have h := List.of_mem_filter (p := fun r => decide (Cell.null ∉ r)) hr
  simpa using h

/-- Witness for C8 on a dataframe with one missing row: the null row is
dropped and the clean row survives. -/
theorem explore_data_dropna_witness :
    Cell.null ∉ [Cell.num 1] ∧ (exploreData dfWithNull).2.rows = [[Cell.num 1]] :=
  ⟨(explore_data_dropna dfWithNull).1 [Cell.num 1] (by decide), by decide⟩

/-- C4: `basic_analysis` always prints the `describe` summary, and runs the
group-by-mean analysis exactly when a categorical and a numeric column both
exist, grouping by the first categorical column and taking the mean of the
numeric columns. -/
theorem basic_analysis_spec (df : DataFrame) :
    Effect.describeOut df ∈ basicAnalysis df ∧
    ((∃ t, Effect.showGrouped t ∈ basicAnalysis df) ↔
      (¬ catColNames df = [] ∧ ¬ numericColNames df = [])) ∧
    (∀ t, Effect.showGrouped t ∈ basicAnalysis df →
      t = groupbyMean df ((catColNames df).getD 0 "")) := by
  by_cases h : 0 < (catColNames df).length ∧ 0 < (numericColNames df).length
  · simp only [basicAnalysis, h, if_true, ite_true]
    refine ⟨by simp, ?_, ?_⟩
    · constructor
      · intro _
        exact ⟨List.length_pos.mp h.1, List.length_pos.mp h.2⟩
      · intro _
        exact ⟨groupbyMean df ((catColNames df).getD 0 ""), by simp⟩
    · intro t ht
      simpa using ht
  · simp only [basicAnalysis, h, if_false, ite_false]
    refine ⟨by simp, ?_, ?_⟩
    · constructor
      · intro ⟨t, ht⟩
        simp at ht
      · intro ⟨hc, hn⟩
        exact absurd ⟨List.length_pos.mpr hc, List.length_pos.mpr hn⟩ h
    · intro t ht
      simp at ht

/-- Witness for C4: a dataframe with one categorical and one numeric
column performs the grouping, and its categorical and numeric column lists
are nonempty. -/
theorem basic_analysis_spec_witness :
    Effect.describeOut dfCatNum ∈ basicAnalysis dfCatNum ∧
    (∃ t, Effect.showGrouped t ∈ basicAnalysis dfCatNum) :=
  ⟨(basic_analysis_spec dfCatNum).1,
   (basic_analysis_spec dfCatNum).2.1.mpr ⟨by decide, by decide⟩⟩

/-- C3 counterexample: `dfTwoNum` has two numeric columns but no
categorical column, and `visualize_data` then renders only the line chart,
the histogram and the scatter plot — the bar chart is skipped, so the four
canned plots are not all rendered. -/
theorem visualize_data_missing_bar :
    2 ≤ (numericColNames dfTwoNum).length ∧
    visualizeData dfTwoNum =
      [Effect.showChart (Plot.line "a"), Effect.showChart (Plot.hist "b"),
       Effect.showChart (Plot.scatter "a" "b" none)] ∧
    (visualizeData dfTwoNum).countP isBarChart = 0 := by
  decide

/-- C3 (amended): with fewer than two numeric columns, `visualize_data`
renders nothing and only prints the message; with at least two, it renders
the line chart of the first numeric column, the histogram of the second and
the scatter plot of the first two, and it renders the bar chart (mean of
the first numeric column per category) exactly when a categorical column
exists. -/
theorem visualize_data_plots (df : DataFrame) :
    ((numericColNames df).length < 2 →
      visualizeData df =
        [Effect.print "✗ Not enough numerical columns to generate all plots."]) ∧
    (2 ≤ (numericColNames df).length →
      Effect.showChart (Plot.line ((numericColNames df).getD 0 "")) ∈ visualizeData df ∧
      Effect.showChart (Plot.hist ((numericColNames df).getD 1 "")) ∈ visualizeData df ∧
      Effect.showChart (Plot.scatter ((numericColNames df).getD 0 "")
        ((numericColNames df).getD 1 "") (catColNames df).head?) ∈ visualizeData df ∧
      ((Effect.showChart (Plot.bar ((catColNames df).getD 0 "")
          ((numericColNames df).getD 0 "")) ∈ visualizeData df) ↔
        ¬ catColNames df = [])) := by
  by_cases h : (numericColNames df).length < 2
  · refine ⟨fun _ => ?_, fun h2 => absurd h (by omega)⟩
    simp only [visualizeData, h, if_true, ite_true]
  · refine ⟨fun h1 => absurd h1 h, fun _ => ?_⟩
    simp only [visualizeData, h, if_false, ite_false]
    by_cases hc : 0 < (catColNames df).length
    · simp only [hc, if_true, ite_true]
      refine ⟨by simp, by simp, by simp, ?_⟩
      simp only [List.mem_append, List.mem_cons, List.mem_singleton]
      constructor
      · intro _
        exact List.length_pos.mp hc
      · intro _
        simp
    · simp only [hc, if_false, ite_false]
      refine ⟨by simp, by simp, by simp, ?_⟩
      constructor
      · intro hmem
        simp at hmem
      · intro hne
        exact absurd (List.length_pos.mpr hne) hc

/-- Witness for C3 (amended): the two-numeric-column dataframe renders the
line chart, and the single-column dataframe only prints the message. -/
theorem visualize_data_plots_witness :
    Effect.showChart (Plot.line "a") ∈ visualizeData dfTwoNum ∧
    visualizeData dfOneNum =
      [Effect.print "✗ Not enough numerical columns to generate all plots."] :=
  ⟨((visualize_data_plots dfTwoNum).2 (by decide)).1,
   (visualize_data_plots dfOneNum).1 (by decide)⟩

/-- Lookup in an empty row finds nothing. -/
theorem rowLookup_nil (cols : List Col) (nm : String) : rowLookup [] cols nm = none := by
  cases cols <;> rfl

/-- Dropping the `tgt` column from a row and from the headers preserves the
lookup of every other label. -/
theorem rowLookup_dropRow (tgt nm : String) (h : ¬ nm = tgt) (cols : List Col) :
    ∀ r : List Cell,
      rowLookup (dropColumn.dropRow cols r tgt)
        (cols.filter (fun c => decide (¬ c.name = tgt))) nm = rowLookup r cols nm := by
  induction cols with
  | nil =>
    intro r
    rfl
  | cons c cs ih =>
    intro r
    by_cases hc : c.name = tgt
    · have hfil : (c :: cs).filter (fun c => decide (¬ c.name = tgt)) =
          cs.filter (fun c => decide (¬ c.name = tgt)) := by
        simp [List.filter_cons, hc]
      cases r with
      | nil =>
        rw [show dropColumn.dropRow (c :: cs) ([] : List Cell) tgt = [] from rfl, hfil,
            rowLookup_nil, rowLookup_nil]
      | cons v vs =>
        have hdr : dropColumn.dropRow (c :: cs) (v :: vs) tgt =
            dropColumn.dropRow cs vs tgt := by
          rw [show dropColumn.dropRow (c :: cs) (v :: vs) tgt =
              (if c.name = tgt then dropColumn.dropRow cs vs tgt
               else v :: dropColumn.dropRow cs vs tgt) from rfl, if_pos hc]
        have hcn : ¬ c.name = nm := fun hh => h (hh ▸ hc)
        rw [hdr, hfil, ih vs,
            show rowLookup (v :: vs) (c :: cs) nm =
              (if c.name = nm then some v else rowLookup vs cs nm) from rfl,
            if_neg hcn]
    · have hfil : (c :: cs).filter (fun c => decide (¬ c.name = tgt)) =
          c :: cs.filter (fun c => decide (¬ c.name = tgt)) := by
        simp [List.filter_cons, hc]
      cases r with
      | nil =>
        rw [show dropColumn.dropRow (c :: cs) ([] : List Cell) tgt = [] from rfl, hfil,
            rowLookup_nil, rowLookup_nil]
      | cons v vs =>
        have hdr : dropColumn.dropRow (c :: cs) (v :: vs) tgt =
            v :: dropColumn.dropRow cs vs tgt := by
          rw [show dropColumn.dropRow (c :: cs) (v :: vs) tgt =
              (if c.name = tgt then dropColumn.dropRow cs vs tgt
               else v :: dropColumn.dropRow cs vs tgt) from rfl, if_neg hc]
        rw [hdr, hfil,
            show rowLookup (v :: dropColumn.dropRow cs vs tgt)
              (c :: cs.filter (fun c => decide (¬ c.name = tgt))) nm =
              (if c.name = nm then some v
               else rowLookup (dropColumn.dropRow cs vs tgt)
                 (cs.filter (fun c => decide (¬ c.name = tgt))) nm) from rfl,
            show rowLookup (v :: vs) (c :: cs) nm =
              (if c.name = nm then some v else rowLookup vs cs nm) from rfl,
            ih vs]

/-- When no header of the aligned left part carries the label, lookup
passes to the appended part. -/
theorem rowLookup_append_right (nm : String) (cols : List Col) (r : List Cell)
    (hlen : r.length = cols.length) (hnm : ∀ c ∈ cols, ¬ c.name = nm)
    (cols2 : List Col) (r2 : List Cell) :
    rowLookup (r ++ r2) (cols ++ cols2) nm = rowLookup r2 cols2 nm := by
  induction cols generalizing r with
  | nil =>
    cases r with
    | nil => rfl
    | cons v vs => simp at hlen
  | cons c cs ih =>
    cases r with
    | nil => simp at hlen
    | cons v vs =>
      have hc : ¬ c.name = nm := hnm c (by simp)
      simp only [List.cons_append, rowLookup, hc, if_false, ite_false]
      exact ih vs (by simpa using hlen) (fun d hd => hnm d (by simp [hd]))

/-- Appending one differently-labelled column to an aligned row does not
change the lookup of a label. -/
theorem rowLookup_append_one (nm : String) (sp : Col) (v : Cell) (hsp : ¬ sp.name = nm)
    (cols : List Col) (r : List Cell) (hlen : r.length = cols.length) :
    rowLookup (r ++ [v]) (cols ++ [sp]) nm = rowLookup r cols nm := by
  induction cols generalizing r with
  | nil =>
    cases r with
    | nil => simp [rowLookup, hsp, rowLookup_nil]
    | cons w ws => simp at hlen
  | cons c cs ih =>
    cases r with
    | nil => simp at hlen
    | cons w ws =>
      by_cases hn : c.name = nm
      · simp [rowLookup, hn]
      · simp [rowLookup, hn, ih ws (by simpa using hlen)]

/-- C9: the `load_iris_dataset` transform removes the `target` column, adds
a `species` column holding, for each row, the target name indexed by that
row's numeric target code, and leaves every other column unchanged. -/
theorem load_iris_transform_spec (df out : DataFrame) (tn : List String)
    (hT : hasCol df "target" = true)
    (hS : hasCol df "species" = false)
    (hR : ∀ r ∈ df.rows, r.length = df.cols.length)
    (hout : loadIrisTransform df tn = some out) :
    hasCol out "target" = false ∧
    hasCol out "species" = true ∧
    colValues out "species" =
      some (df.rows.map (fun r =>
        Cell.str (tn.getD (cellToNat (cellOf df r "target")) ""))) ∧
    (∀ nm, ¬ nm = "target" → ¬ nm = "species" →
      colValues out nm = colValues df nm) := by
  have hnmS : ∀ c ∈ df.cols, ¬ c.name = "species" := by
    intro c hc hcn
    have habs : hasCol df "species" = true := by
      unfold hasCol
      rw [List.any_eq_true]
      exact ⟨c, hc, by simp [hcn]⟩
    rw [hS] at habs
    exact Bool.noConfusion habs
  have houtL : loadIrisTransform df tn =
      some ⟨(df.cols ++ [(⟨"species", Dtype.object⟩ : Col)]).filter
              (fun c => decide (¬ c.name = "target")),
            (df.rows.map (fun r => r ++ [speciesCell tn df.cols r])).map
              (fun r =>
                dropColumn.dropRow (df.cols ++ [(⟨"species", Dtype.object⟩ : Col)])
                  r "target")⟩ := by
    unfold loadIrisTransform setColumn dropColumn
    rw [if_neg (show ¬ hasCol df "species" = true by simp [hS])]
    rw [if_pos (show hasCol
        ⟨df.cols ++ [(⟨"species", Dtype.object⟩ : Col)],
         df.rows.map (fun r => r ++ [speciesCell tn df.cols r])⟩ "target" = true by
      unfold hasCol at hT ⊢
      rw [List.any_append, hT]
      rfl)]
  rw [houtL] at hout
  injection hout with hout
  subst hout
  have hSp : hasCol
      ⟨(df.cols ++ [(⟨"species", Dtype.object⟩ : Col)]).filter
          (fun c => decide (¬ c.name = "target")),
        (df.rows.map (fun r => r ++ [speciesCell tn df.cols r])).map
          (fun r =>
            dropColumn.dropRow (df.cols ++ [(⟨"species", Dtype.object⟩ : Col)])
              r "target")⟩
      "species" = true := by
    unfold hasCol
    rw [List.any_eq_true]
    refine ⟨⟨"species", Dtype.object⟩, ?_, by simp⟩
    rw [List.mem_filter]
    exact ⟨List.mem_append_right _ (by simp), by simp⟩
  refine ⟨?_, hSp, ?_, ?_⟩
  · rw [Bool.eq_false_iff]
    intro habs
    unfold hasCol at habs
    rw [List.any_eq_true] at habs
    obtain ⟨c, hcmem, hceq⟩ := habs
    rw [List.mem_filter] at hcmem
    simp only [decide_eq_true_eq] at hcmem hceq
    exact hcmem.2 hceq
  · unfold colValues
    rw [if_pos hSp]
    refine congrArg some ?_
    simp only [List.map_map]
    refine List.map_congr_left ?_
    intro r hr
    show cellOf _ (dropColumn.dropRow (df.cols ++ [(⟨"species", Dtype.object⟩ : Col)])
      (r ++ [speciesCell tn df.cols r]) "target") "species" = _
    unfold cellOf
    rw [show (⟨(df.cols ++ [(⟨"species", Dtype.object⟩ : Col)]).filter
          (fun c => decide (¬ c.name = "target")),
        (df.rows.map (fun r => r ++ [speciesCell tn df.cols r])).map
          (fun r =>
            dropColumn.dropRow (df.cols ++ [(⟨"species", Dtype.object⟩ : Col)])
              r "target")⟩
        : DataFrame).cols =
      (df.cols ++ [(⟨"species", Dtype.object⟩ : Col)]).filter
        (fun c => decide (¬ c.name = "target")) from rfl]
    rw [rowLookup_dropRow "target" "species" (by decide)
        (df.cols ++ [(⟨"species", Dtype.object⟩ : Col)]) (r ++ [speciesCell tn df.cols r])]
    rw [rowLookup_append_right "species" df.cols r (hR r hr) hnmS
        [(⟨"species", Dtype.object⟩ : Col)] [speciesCell tn df.cols r]]
    rfl
  · intro nm hnt hns
    have hcols : hasCol
        ⟨(df.cols ++ [(⟨"species", Dtype.object⟩ : Col)]).filter
            (fun c => decide (¬ c.name = "target")),
          (df.rows.map (fun r => r ++ [speciesCell tn df.cols r])).map
            (fun r =>
              dropColumn.dropRow (df.cols ++ [(⟨"species", Dtype.object⟩ : Col)])
                r "target")⟩
        nm = hasCol df nm := by
      cases hv : hasCol df nm with
      | false =>
        rw [Bool.eq_false_iff]
        intro habs
        unfold hasCol at habs
        rw [List.any_eq_true] at habs
        obtain ⟨c, hcmem, hceq⟩ := habs
        rw [List.mem_filter, List.mem_append] at hcmem
        simp only [decide_eq_true_eq, List.mem_singleton] at hcmem hceq
        rcases hcmem.1 with hcdf | hcsp
        · have habs2 : hasCol df nm = true := by
            unfold hasCol
            rw [List.any_eq_true]
            exact ⟨c, hcdf, by simp [hceq]⟩
          rw [hv] at habs2
          exact Bool.noConfusion habs2
        · subst hcsp
          exact hns hceq.symm
      | true =>
        unfold hasCol at hv ⊢
        rw [List.any_eq_true] at hv ⊢
        obtain ⟨c, hc, hceq⟩ := hv
        simp only [decide_eq_true_eq] at hceq
        refine ⟨c, ?_, by simp [hceq]⟩
        rw [List.mem_filter]
        refine ⟨List.mem_append_left _ hc, ?_⟩
        simp [hceq, hnt]
    unfold colValues
    cases hv : hasCol df nm with
    | false =>
      rw [hv] at hcols
      rw [if_neg (by intro habs; rw [hcols] at habs; exact Bool.noConfusion habs),
          if_neg (by intro habs; exact Bool.noConfusion habs)]
    | true =>
      rw [hv] at hcols
      rw [if_pos hcols, if_pos rfl]
      refine congrArg some ?_
      simp only [List.map_map]
      refine List.map_congr_left ?_
      intro r hr
      show cellOf _ (dropColumn.dropRow (df.cols ++ [(⟨"species", Dtype.object⟩ : Col)])
        (r ++ [speciesCell tn df.cols r]) "target") nm = _
      unfold cellOf
      rw [show (⟨(df.cols ++ [(⟨"species", Dtype.object⟩ : Col)]).filter
            (fun c => decide (¬ c.name = "target")),
          (df.rows.map (fun r => r ++ [speciesCell tn df.cols r])).map
            (fun r =>
              dropColumn.dropRow (df.cols ++ [(⟨"species", Dtype.object⟩ : Col)])
                r "target")⟩
          : DataFrame).cols =
        (df.cols ++ [(⟨"species", Dtype.object⟩ : Col)]).filter
          (fun c => decide (¬ c.name = "target")) from rfl]
      rw [rowLookup_dropRow "target" nm hnt
          (df.cols ++ [(⟨"species", Dtype.object⟩ : Col)])
          (r ++ [speciesCell tn df.cols r])]
      rw [rowLookup_append_one nm ⟨"species", Dtype.object⟩ (speciesCell tn df.cols r)
          (fun hh => hns hh.symm) df.cols r (hR r hr)]

/-- Witness for C9 at the modelled Iris frame: the dataframe
`load_iris_dataset` returns has no `target` column and has a `species`
column. -/
theorem load_iris_transform_spec_witness :
    hasCol irisDF "target" = false ∧ hasCol irisDF "species" = true := by
  have h := load_iris_transform_spec irisFrame irisDF irisTargetNames rfl rfl
    (by decide) (by rfl)
  exact ⟨h.1, h.2.1⟩

/-- Witness for C10: with empty input the Iris fallback loads, the
dataframe is nonempty, and the run prints the completion message. -/
theorem main_guard_witness :
    Effect.print "Analysis complete. Community enriched." ∈
      (mainRun ⟨"", true, Except.ok ⟨[], []⟩⟩).effects :=
  ((main_guard ⟨"", true, Except.ok ⟨[], []⟩⟩).2 irisDF (by rfl)).2.2 (by rfl)
